import Mathlib

/-!
Verification of the Shipwreck data explorer (Finalproject.py).

The core logic is two functions:
  - `load_data`  : reads raw tabular records, renames columns, coerces
    `Year` (dropping rows whose year does not parse), strips `Type`
    strings, coerces `LivesLost` with default 0, coerces the
    coordinates, and derives `Fatal = LivesLost > 0`;
  - `filter_data`: filters the cleaned table by an inclusive year range,
    an optional list of vessel types, and a fatal-only flag, returning
    the subset together with its length.

We embed one spreadsheet cell as `Cell` (missing / text / number), a raw
row as `RawRecord` (the columns after the renaming step), and a cleaned
row as `Record`.  `pd.to_numeric(errors="coerce")` on a cell is
`toNumeric`; `dropna` composed with the per-row transformations is
`cleanRow` together with `List.filterMap`.
-/

namespace Shipwreck

/-- One spreadsheet cell: missing (NaN), a text value, or a numeric value. -/
inductive Cell where
  | missing : Cell
  | str : String → Cell
  | num : Int → Cell
deriving DecidableEq, Repr

/-- A raw row after the column renaming in `load_data` (lines 20-30). -/
structure RawRecord where
  shipName : Cell
  type : Cell
  cause : Cell
  year : Cell
  livesLost : Cell
  latitude : Cell
  longitude : Cell
deriving DecidableEq, Repr

/-- A cleaned row as produced by `load_data`: `Year` and `LivesLost` are
integers, the coordinates are numeric or missing, `Fatal` is derived. -/
structure Record where
  shipName : Cell
  type : Cell
  cause : Cell
  year : Int
  livesLost : Int
  latitude : Option Int
  longitude : Option Int
  fatal : Bool
deriving DecidableEq, Repr

/-- Numeric value of a digit list (most significant first). -/
def digitsVal (l : List Char) : Nat :=
  l.foldl (fun acc c => acc * 10 + (c.toNat - 48)) 0

/-- Parse a nonempty all-digit character list, otherwise fail. -/
def parseDigits (l : List Char) : Option Nat :=
  if l.isEmpty then none
  else if l.all Char.isDigit then some (digitsVal l) else none

/-- Model of `pd.to_numeric(cell, errors="coerce")` on one cell: numbers
pass through, integer-literal text parses (optional leading minus sign),
everything else — missing values included — coerces to missing. -/
def toNumeric : Cell → Option Int
  | Cell.missing => none
  | Cell.num n => some n
  | Cell.str s =>
    match s.data with
    | '-' :: rest => (parseDigits rest).map (fun n => -(n : Int))
    | l => (parseDigits l).map (fun n => (n : Int))

/-- Model of Python `s.strip()`: drop whitespace from both ends. -/
def pyStrip (s : String) : String :=
  String.mk (((s.data.dropWhile Char.isWhitespace).reverse.dropWhile
    Char.isWhitespace).reverse)

/-- Line 38 of the source: `t.strip() if isinstance(t, str) else t`. -/
def stripCell : Cell → Cell
  | Cell.str s => Cell.str (pyStrip s)
  | c => c

/-- The per-row cleaning of `load_data` (lines 33-47): a row whose `Year`
does not parse is dropped (`dropna(subset=["Year"])`); otherwise `Type`
is stripped when text, `LivesLost` is coerced with default 0, the
coordinates are coerced independently, and `Fatal = LivesLost > 0`. -/
def cleanRow (raw : RawRecord) : Option Record :=
  match toNumeric raw.year with
  | none => none
  | some y =>
    let lives := (toNumeric raw.livesLost).getD 0
    some { shipName := raw.shipName
           type := stripCell raw.type
           cause := raw.cause
           year := y
           livesLost := lives
           latitude := toNumeric raw.latitude
           longitude := toNumeric raw.longitude
           fatal := decide (0 < lives) }

/-- `load_data`: clean every raw row, dropping exactly the rows whose
`Year` fails numeric coercion.  The input list stands for the rows read
from the spreadsheet (already capped by `nrows` at read time). -/
def load_data (rows : List RawRecord) : List Record :=
  rows.filterMap cleanRow

/-- `filter_data` (lines 53-67): keep rows with
`start_year <= Year <= end_year`; then, when a non-empty type list is
supplied, keep rows whose `Type` is in it; then, when `fatal_only`,
keep fatal rows.  Returns the subset and its length. -/
def filter_data (df : List Record) (year_range : Int × Int)
    (ship_types : Option (List Cell)) (fatal_only : Bool) :
    List Record × Nat :=
  let f1 := df.filter fun r =>
    decide (year_range.1 ≤ r.year) && decide (r.year ≤ year_range.2)
  let f2 := match ship_types with
    | some ts => if ts.isEmpty then f1 else f1.filter fun r => ts.contains r.type
    | none => f1
  let f3 := if fatal_only then f2.filter (fun r => r.fatal) else f2
  (f3, f3.length)

/-- The year-range predicate of `filter_data`. -/
def yearOk (s e : Int) (r : Record) : Bool :=
  decide (s ≤ r.year) && decide (r.year ≤ e)

/-- The vessel-type predicate of `filter_data`: no list, or an empty
list, imposes no restriction. -/
def typeOk (ts : Option (List Cell)) (r : Record) : Bool :=
  match ts with
  | none => true
  | some l => l.isEmpty || l.contains r.type

/-- The fatal-only predicate of `filter_data`. -/
def fatalOk (fatal_only : Bool) (r : Record) : Bool :=
  !fatal_only || r.fatal

/-- `noEdgeWhitespace s` holds when `s` starts and ends with
non-whitespace characters (vacuously for the empty string). -/
def noEdgeWhitespace (s : String) : Bool :=
  (match s.data.head? with
   | none => true
   | some c => !c.isWhitespace)
  && (match s.data.getLast? with
      | none => true
      | some c => !c.isWhitespace)

/-! ### Concrete example rows, used by the witnesses -/

/-- A raw row with a numeric year, a padded type string and 3 lives lost. -/
def rawA : RawRecord :=
  { shipName := Cell.str "Alpha", type := Cell.str " Schooner ",
    cause := Cell.str "Storm", year := Cell.num 1900,
    livesLost := Cell.num 3, latitude := Cell.num 45,
    longitude := Cell.missing }

/-- A raw row whose year is the unparseable text "unknown". -/
def rawB : RawRecord :=
  { shipName := Cell.str "Bravo", type := Cell.str "Barge",
    cause := Cell.str "Fire", year := Cell.str "unknown",
    livesLost := Cell.num 1, latitude := Cell.num 44,
    longitude := Cell.num 9 }

/-- A raw row with a textual year, missing type and lives lost, and an
unparseable latitude. -/
def rawC : RawRecord :=
  { shipName := Cell.missing, type := Cell.missing,
    cause := Cell.str "Ice", year := Cell.str "1920",
    livesLost := Cell.missing, latitude := Cell.str "bad",
    longitude := Cell.num 7 }

/-- A raw row carrying a negative lives-lost value. -/
def rawNeg : RawRecord :=
  { shipName := Cell.missing, type := Cell.missing,
    cause := Cell.missing, year := Cell.num 1900,
    livesLost := Cell.num (-3), latitude := Cell.missing,
    longitude := Cell.missing }

/-- The cleaned form of `rawA`. -/
def recA : Record :=
  { shipName := Cell.str "Alpha", type := Cell.str "Schooner",
    cause := Cell.str "Storm", year := 1900, livesLost := 3,
    latitude := some 45, longitude := none, fatal := true }

/-- The cleaned form of `rawC`. -/
def recC : Record :=
  { shipName := Cell.missing, type := Cell.missing,
    cause := Cell.str "Ice", year := 1920, livesLost := 0,
    latitude := none, longitude := some 7, fatal := false }

/-- The cleaned form of `rawNeg`: its `livesLost` is negative. -/
def recNeg : Record :=
  { shipName := Cell.missing, type := Cell.missing,
    cause := Cell.missing, year := 1900, livesLost := -3,
    latitude := none, longitude := none, fatal := false }

/-- A three-row raw table exercising every cleaning path. -/
def exRows : List RawRecord := [rawA, rawB, rawC]

/-- The cleaned table of `exRows`. -/
def exDf : List Record := [recA, recC]

/-! ### Helper lemmas -/

/-- Field-by-field description of a successfully cleaned row. -/
lemma cleanRow_some {raw : RawRecord} {rec : Record}
    (h : cleanRow raw = some rec) :
    toNumeric raw.year = some rec.year ∧
    rec.type = stripCell raw.type ∧
    rec.livesLost = (toNumeric raw.livesLost).getD 0 ∧
    rec.latitude = toNumeric raw.latitude ∧
    rec.longitude = toNumeric raw.longitude ∧
    rec.fatal = decide (0 < rec.livesLost) ∧
    rec.shipName = raw.shipName ∧ rec.cause = raw.cause := by
  unfold cleanRow at h
  cases hy : toNumeric raw.year with
  | none => rw [hy] at h; exact absurd h (by simp)
  | some y =>
    rw [hy] at h
    simp only [Option.some.injEq] at h
    subst h
    simp

/-- A row cleans successfully exactly when its `Year` parses. -/
lemma cleanRow_isSome (raw : RawRecord) :
    (cleanRow raw).isSome = (toNumeric raw.year).isSome := by
  unfold cleanRow
  cases toNumeric raw.year <;> simp

/-- Membership in the cleaned table. -/
lemma mem_load_data {rows : List RawRecord} {rec : Record} :
    rec ∈ load_data rows ↔ ∃ raw ∈ rows, cleanRow raw = some rec := by
  simp [load_data, List.mem_filterMap]

/-- Three nested filters collapse into one conjunction filter. -/
lemma filter_three (l : List Record) (p q t : Record → Bool) :
    ((l.filter p).filter q).filter t = l.filter (fun r => p r && q r && t r) := by
  rw [List.filter_filter, List.filter_filter]
  exact List.filter_congr (fun r _ => by
    cases p r <;> cases q r <;> cases t r <;> rfl)

/-- The subset returned by `filter_data` is a single filter by the
conjunction of the three predicates. -/
lemma filter_data_fst (df : List Record) (s e : Int)
    (ts : Option (List Cell)) (f : Bool) :
    (filter_data df (s, e) ts f).1 =
      df.filter (fun r => yearOk s e r && typeOk ts r && fatalOk f r) := by
  rw [← filter_three df (yearOk s e) (typeOk ts) (fatalOk f)]
  cases ts with
  | none =>
    cases f <;>
      simp [filter_data, yearOk, typeOk, fatalOk, List.filter_true]
  | some l =>
    cases l with
    | nil =>
      cases f <;>
        simp [filter_data, yearOk, typeOk, fatalOk, List.filter_true]
    | cons a l =>
      cases f <;>
        simp [filter_data, yearOk, typeOk, fatalOk]

/-- The count returned by `filter_data` is the length of the subset. -/
lemma filter_data_snd (df : List Record) (yr : Int × Int)
    (ts : Option (List Cell)) (f : Bool) :
    (filter_data df yr ts f).2 = (filter_data df yr ts f).1.length := rfl

/-- Membership in the first component of `filter_data`. -/
lemma mem_filter_data {df : List Record} {s e : Int}
    {ts : Option (List Cell)} {f : Bool} {r : Record} :
    r ∈ (filter_data df (s, e) ts f).1 ↔
      r ∈ df ∧ yearOk s e r = true ∧ typeOk ts r = true ∧ fatalOk f r = true := by
  rw [filter_data_fst]
  simp [List.mem_filter, and_assoc]

/-- The head of `dropWhile p` never satisfies `p`. -/
lemma head_dropWhile_false {p : Char → Bool} {l : List Char} {c : Char}
    (h : (l.dropWhile p).head? = some c) : p c = false := by
  induction l with
  | nil => simp [List.dropWhile] at h
  | cons a l ih =>
    rw [List.dropWhile_cons] at h
    by_cases hp : p a = true
    · exact ih (by simpa [hp] using h)
    · rw [if_neg hp] at h
      simp only [List.head?_cons, Option.some.injEq] at h
      subst h
      simpa using hp

/-- The last element of `dropWhile p l` is the last element of `l`. -/
lemma getLast_dropWhile {p : Char → Bool} {l : List Char} {c : Char}
    (h : (l.dropWhile p).getLast? = some c) : l.getLast? = some c := by
  induction l with
  | nil => simp [List.dropWhile] at h
  | cons a l ih =>
    rw [List.dropWhile_cons] at h
    by_cases hp : p a = true
    · simp only [hp, if_true] at h
      have hl := ih h
      rw [List.getLast?_cons, hl]
      rfl
    · simpa [hp] using h

/-- Stripping leaves no whitespace at either end of the string. -/
lemma noEdgeWhitespace_pyStrip (s : String) :
    noEdgeWhitespace (pyStrip s) = true := by
  have hdata : (pyStrip s).data =
      ((s.data.dropWhile Char.isWhitespace).reverse.dropWhile
        Char.isWhitespace).reverse := rfl
  unfold noEdgeWhitespace
  rw [hdata, Bool.and_eq_true]
  refine ⟨?_, ?_⟩
  · rw [List.head?_reverse]
    cases hg : ((s.data.dropWhile Char.isWhitespace).reverse.dropWhile
        Char.isWhitespace).getLast? with
    | none => rfl
    | some c =>
      have h1 := getLast_dropWhile hg
      rw [List.getLast?_reverse] at h1
      have h2 := head_dropWhile_false h1
      simp [h2]
  · rw [List.getLast?_reverse]
    cases hh : ((s.data.dropWhile Char.isWhitespace).reverse.dropWhile
        Char.isWhitespace).head? with
    | none => rfl
    | some c =>
      have h2 := head_dropWhile_false hh
      simp [h2]

/-- Sanity: cleaning the example table gives the expected records. -/
lemma load_data_exRows : load_data exRows = exDf := by decide

/-! ### The claims -/

/-- C1: for every record in the cleaned table returned by `load_data`,
the derived `Fatal` field equals `LivesLost > 0`. -/
theorem C1_fatal_functional_dependence (rows : List RawRecord) (r : Record)
    (h : r ∈ load_data rows) : r.fatal = true ↔ 0 < r.livesLost := by
  rcases mem_load_data.mp h with ⟨raw, _, hc⟩
  rw [(cleanRow_some hc).2.2.2.2.2.1]
  simp

/-- Witness for C1 on a concrete table. -/
theorem C1_witness :
    recA ∈ load_data exRows ∧ (recA.fatal = true ↔ 0 < recA.livesLost) :=
  ⟨by decide, C1_fatal_functional_dependence exRows recA (by decide)⟩

/-- C2: `load_data` drops exactly the rows whose `Year` fails numeric
coercion, every surviving raw row contributes a record, each cleaned
record carries the parsed integer `Year` of one of the raw rows, and the
cleaned table has exactly as many rows as there are raw rows with a
parseable `Year`. -/
theorem C2_year_coercion (rows : List RawRecord) :
    (∀ raw ∈ rows, (cleanRow raw).isSome = (toNumeric raw.year).isSome)
    ∧ (∀ rec ∈ load_data rows, ∃ raw ∈ rows, toNumeric raw.year = some rec.year)
    ∧ (load_data rows).length
        = (rows.filter (fun raw => (toNumeric raw.year).isSome)).length := by
  refine ⟨fun raw _ => cleanRow_isSome raw, ?_, ?_⟩
  · intro rec h
    rcases mem_load_data.mp h with ⟨raw, hm, hc⟩
    exact ⟨raw, hm, (cleanRow_some hc).1⟩
  · unfold load_data
    induction rows with
    | nil => rfl
    | cons raw rows ih =>
      rw [List.filterMap_cons, List.filter_cons]
      cases hc : cleanRow raw with
      | none =>
        have hn : (toNumeric raw.year).isSome = false := by
          rw [← cleanRow_isSome, hc]; rfl
        simp [hn, ih]
      | some rec =>
        have hs : (toNumeric raw.year).isSome = true := by
          rw [← cleanRow_isSome, hc]; rfl
        simp [hs, ih]

/-- Witness for C2: the row with `Year = "unknown"` is the one dropped. -/
theorem C2_witness :
    ((cleanRow rawB).isSome = (toNumeric rawB.year).isSome)
    ∧ (load_data exRows).length
        = (exRows.filter (fun raw => (toNumeric raw.year).isSome)).length :=
  ⟨(C2_year_coercion exRows).1 rawB (by decide), (C2_year_coercion exRows).2.2⟩

/-- C3: an empty ship-type list imposes no type restriction — the result
(subset and count) is identical to passing no list at all. -/
theorem C3_empty_types_no_filter (df : List Record) (yr : Int × Int)
    (f : Bool) : filter_data df yr (some []) f = filter_data df yr none f := by
  simp [filter_data]

/-- C4: `filter_data` keeps exactly the records whose `Year` lies in the
inclusive range; every returned record satisfies the bounds whatever the
other filters are; and an inverted range yields `([], 0)`. -/
theorem C4_year_range (df : List Record) (s e : Int) :
    ((filter_data df (s, e) none false).1
        = df.filter (fun r => decide (s ≤ r.year) && decide (r.year ≤ e)))
    ∧ (∀ ts f r, r ∈ (filter_data df (s, e) ts f).1 → s ≤ r.year ∧ r.year ≤ e)
    ∧ (∀ ts f, e < s → filter_data df (s, e) ts f = ([], 0)) := by
  refine ⟨?_, ?_, ?_⟩
  · rw [filter_data_fst]
    exact List.filter_congr (fun r _ => by simp [yearOk, typeOk, fatalOk])
  · intro ts f r h
    have hy := (mem_filter_data.mp h).2.1
    unfold yearOk at hy
    simpa using hy
  · intro ts f hlt
    have hfst : (filter_data df (s, e) ts f).1 = [] := by
      rw [filter_data_fst]
      rw [List.filter_eq_nil_iff]
      intro r _
      have hy : yearOk s e r = false := by
        unfold yearOk
        by_cases h : s ≤ r.year
        · have h2 : ¬ (r.year ≤ e) := by omega
          simp [h, h2]
        · simp [h]
      simp [hy]
    have hsnd : (filter_data df (s, e) ts f).2 = 0 := by
      rw [filter_data_snd, hfst]; rfl
    exact Prod.ext_iff.mpr ⟨hfst, hsnd⟩

/-- Witness for C4: a record inside the range, and an inverted range. -/
theorem C4_witness :
    (1900 ≤ recA.year ∧ recA.year ≤ 1950)
    ∧ filter_data exDf (1950, 1900) none false = ([], 0) :=
  ⟨(C4_year_range exDf 1900 1950).2.1 none false recA (by decide),
   (C4_year_range exDf 1950 1900).2.2 none false (by decide)⟩

/-- C5 as stated is false: a negative raw `LIVES LOST` value passes
through coercion unchanged, so `LivesLost` can be negative. -/
theorem C5_counterexample :
    ¬ (∀ rows : List RawRecord, ∀ r ∈ load_data rows, 0 ≤ r.livesLost) :=
  fun h => absurd (h [rawNeg] recNeg (by decide)) (by decide)

/-- C5 amended: `LivesLost` is always an integer, never missing; a
missing or unparseable raw value becomes 0 and forces `Fatal = false`;
otherwise `LivesLost` is exactly the parsed raw value (so it is
non-negative only when the raw value is). -/
theorem C5_liveslost_default (raw : RawRecord) (rec : Record)
    (h : cleanRow raw = some rec) :
    (toNumeric raw.livesLost = none → rec.livesLost = 0 ∧ rec.fatal = false)
    ∧ (∀ n, toNumeric raw.livesLost = some n → rec.livesLost = n) := by
  have hc := cleanRow_some h
  refine ⟨?_, ?_⟩
  · intro hn
    have h1 : rec.livesLost = 0 := by rw [hc.2.2.1, hn]; rfl
    refine ⟨h1, ?_⟩
    rw [hc.2.2.2.2.2.1, h1]
    rfl
  · intro n hn
    rw [hc.2.2.1, hn]
    rfl

/-- Witness for C5 amended: the blank lives-lost row becomes 0/false. -/
theorem C5_witness : recC.livesLost = 0 ∧ recC.fatal = false :=
  (C5_liveslost_default rawC recC (by decide)).1 (by decide)

/-- C6: with `fatal_only = true` the result is exactly the fatal subset
of what the same call returns without the flag, and the returned count
always equals the size of the returned subset. -/
theorem C6_fatal_only (df : List Record) (yr : Int × Int)
    (ts : Option (List Cell)) :
    ((filter_data df yr ts true).1
        = ((filter_data df yr ts false).1).filter (fun r => r.fatal))
    ∧ (∀ f, (filter_data df yr ts f).2 = (filter_data df yr ts f).1.length)
    ∧ (∀ r, r ∈ (filter_data df yr ts true).1
        ↔ r ∈ (filter_data df yr ts false).1 ∧ r.fatal = true) := by
  obtain ⟨s, e⟩ := yr
  refine ⟨?_, fun f => filter_data_snd df (s, e) ts f, ?_⟩
  · simp [filter_data]
  · intro r
    rw [mem_filter_data, mem_filter_data]
    unfold fatalOk
    simp [and_assoc]

/-- C7: `filter_data` is idempotent — re-filtering its own subset with
the same parameters returns the identical subset and count. -/
theorem C7_idempotent (df : List Record) (yr : Int × Int)
    (ts : Option (List Cell)) (f : Bool) :
    filter_data (filter_data df yr ts f).1 yr ts f = filter_data df yr ts f := by
  obtain ⟨s, e⟩ := yr
  have key : (filter_data (filter_data df (s, e) ts f).1 (s, e) ts f).1
      = (filter_data df (s, e) ts f).1 := by
    rw [filter_data_fst _ s e ts f, filter_data_fst df s e ts f,
      List.filter_filter]
    exact List.filter_congr (fun r _ => Bool.and_self _)
  exact Prod.ext_iff.mpr ⟨key, by rw [filter_data_snd, filter_data_snd, key]⟩

/-- C8: after `load_data`, every textual `Type` value has no leading or
trailing whitespace, and a non-text `Type` value is passed through
unchanged. -/
theorem C8_type_trim (rows : List RawRecord) :
    (∀ rec ∈ load_data rows, ∀ t, rec.type = Cell.str t → noEdgeWhitespace t = true)
    ∧ (∀ raw rec, cleanRow raw = some rec →
        (∀ t, raw.type ≠ Cell.str t) → rec.type = raw.type) := by
  constructor
  · intro rec h t ht
    rcases mem_load_data.mp h with ⟨raw, _, hc⟩
    have hty := (cleanRow_some hc).2.1
    rw [ht] at hty
    cases hraw : raw.type with
    | missing => rw [hraw] at hty; exact absurd hty (by simp [stripCell])
    | num n => rw [hraw] at hty; exact absurd hty (by simp [stripCell])
    | str u =>
      rw [hraw] at hty
      simp only [stripCell, Cell.str.injEq] at hty
      rw [hty]
      exact noEdgeWhitespace_pyStrip u
  · intro raw rec hc hnot
    have hty := (cleanRow_some hc).2.1
    cases hraw : raw.type with
    | missing => rw [hty, hraw]; rfl
    | num n => rw [hty, hraw]; rfl
    | str u => exact absurd hraw (hnot u)

/-- Witness for C8: the padded type is trimmed, the missing one is kept. -/
theorem C8_witness :
    noEdgeWhitespace "Schooner" = true ∧ recC.type = rawC.type :=
  ⟨(C8_type_trim exRows).1 recA (by decide) "Schooner" (by decide),
   (C8_type_trim exRows).2 rawC recC (by decide)
     (fun t h => Cell.noConfusion h)⟩

/-- C9: the coordinates are coerced independently — each cleaned
coordinate is exactly the numeric coercion of its own raw cell, with
unparseable values becoming missing — and a row whose `Year` parses is
kept no matter what its coordinates are. -/
theorem C9_coords (raw : RawRecord) :
    (∀ rec, cleanRow raw = some rec →
      rec.latitude = toNumeric raw.latitude
        ∧ rec.longitude = toNumeric raw.longitude)
    ∧ ((toNumeric raw.year).isSome → (cleanRow raw).isSome) := by
  constructor
  · intro rec hc
    exact ⟨(cleanRow_some hc).2.2.2.1, (cleanRow_some hc).2.2.2.2.1⟩
  · intro hy
    rw [cleanRow_isSome]
    exact hy

/-- Witness for C9: the row with latitude "bad" stays, latitude missing. -/
theorem C9_witness :
    (recC.latitude = toNumeric rawC.latitude
      ∧ recC.longitude = toNumeric rawC.longitude)
    ∧ (cleanRow rawC).isSome = true :=
  ⟨(C9_coords rawC).1 recC (by decide), (C9_coords rawC).2 (by decide)⟩

/-- C10: a non-empty type selection (of actual type values, so not
containing the missing marker) excludes every record whose `Type` is
missing, although such records are kept by `load_data` and are returned
when no type filter is active. -/
theorem C10_missing_type_excluded (df : List Record) (s e : Int)
    (ts : List Cell) (f : Bool) (hne : ts ≠ [])
    (hnm : Cell.missing ∉ ts) :
    (∀ r ∈ (filter_data df (s, e) (some ts) f).1, r.type ≠ Cell.missing)
    ∧ (∀ raw : RawRecord, raw.type = Cell.missing →
        (cleanRow raw).isSome = (toNumeric raw.year).isSome)
    ∧ (∀ r ∈ df, r.type = Cell.missing → yearOk s e r = true →
        fatalOk f r = true → r ∈ (filter_data df (s, e) none f).1) := by
  refine ⟨?_, fun raw _ => cleanRow_isSome raw, ?_⟩
  · intro r h hmiss
    have ht := (mem_filter_data.mp h).2.2.1
    unfold typeOk at ht
    cases ts with
    | nil => exact hne rfl
    | cons a l =>
      have hmem : r.type ∈ a :: l := by simpa using ht
      rw [hmiss] at hmem
      exact hnm hmem
  · intro r hmem hmiss hy hf
    rw [mem_filter_data]
    exact ⟨hmem, hy, rfl, hf⟩

/-- Witness for C10: the missing-type record is excluded by the type
filter but returned when no type filter is active. -/
theorem C10_witness :
    recA.type ≠ Cell.missing
    ∧ recC ∈ (filter_data exDf (1900, 1950) none false).1 :=
  ⟨(C10_missing_type_excluded exDf 1900 1950 [Cell.str "Schooner"] false
      (by decide) (by decide)).1 recA (by decide),
   (C10_missing_type_excluded exDf 1900 1950 [Cell.str "Schooner"] false
      (by decide) (by decide)).2.2 recC (by decide) (by decide) (by decide)
      (by decide)⟩

end Shipwreck
